import Mathlib

/-!
Shallow embedding of `src/core/include/usServiceTrackerCustomizer.h` from
CppMicroServices.

The header defines a primary template
`ServiceTrackerCustomizer<S, T = S*, Enable = void>` with an empty body and
four specializations, each carrying a `TypeTraits` bundle
(`IsValid`, `DefaultValue`, `Dispose`, `ConvertToTrackedType`):

* variant (a): `enable_if<is_pointer<T> && !is_same<S*,T>>` (lines 85-168);
* variant (b): partial specialization `<S, S*, void>` (lines 170-212);
* variant (c): `enable_if<!is_pointer<T> && is_constructible<T> &&
  (is_convertible<T,bool> || is_constructible<bool,T>)>` (lines 214-256);
* variant (d): full specialization `<void, void*, void>` (lines 258-300).

C++ static types are modelled by the inductive `CppType`, the standard type
traits used in the `enable_if` conditions by boolean functions on `CppType`,
and each specialization's match condition by a boolean predicate on the pair
`(S, T)`.  Pointer values are modelled as `Option Nat` (with `none` for
`nullptr`), `InterfaceMap` (a `std::map<std::string, void*>` in the library)
as an association list, and a boolean-convertible C++ value type `T` of
variant (c) as a `BoolConvertible` package: a carrier, the result of the
value initialization `T()`, and the conversion `static_cast<bool>`.
`void Dispose(X& t)` mutates its argument through a reference; it is embedded
in state-passing style as a function returning the new value of `t`.
`ConvertToTrackedType` bodies that `throw std::runtime_error(...)` are
embedded as `Except String` results.
-/

/-- A C++ static type, as far as the traits used in this header can see it:
`void`, a pointer type `U*`, or a class/fundamental type identified by name
together with the three trait facts the selector queries about a non-pointer
type: `std::is_constructible<T>` (default construction), implicit
`std::is_convertible<T, bool>`, and `std::is_constructible<bool, T>`. -/
inductive CppType where
  | void : CppType
  | ptr : CppType → CppType
  | cls : String → Bool → Bool → Bool → CppType
deriving DecidableEq

/-- `std::is_pointer<T>::value`. -/
def is_pointer : CppType → Bool
  | .ptr _ => true
  | _ => false

/-- `std::is_same<A, B>::value`. -/
def is_same (a b : CppType) : Bool := decide (a = b)

/-- `std::is_constructible<T>::value` (default construction): false for
`void`, true for pointers, the recorded trait for a class type. -/
def is_constructible : CppType → Bool
  | .void => false
  | .ptr _ => true
  | .cls _ d _ _ => d

/-- `std::is_convertible<T, bool>::value`: false for `void`, true for
pointers, the recorded trait for a class type. -/
def is_convertible_bool : CppType → Bool
  | .void => false
  | .ptr _ => true
  | .cls _ _ c _ => c

/-- `std::is_constructible<bool, T>::value`: false for `void`, true for
pointers, the recorded trait for a class type. -/
def is_bool_constructible : CppType → Bool
  | .void => false
  | .ptr _ => true
  | .cls _ _ _ b => b

/-- Match condition of variant (a), line 86:
`std::is_pointer<T>::value && !std::is_same<S*,T>::value`. -/
def selectA (S T : CppType) : Bool :=
  is_pointer T && ! is_same (CppType.ptr S) T

/-- Match condition of variant (b), the partial specialization
`ServiceTrackerCustomizer<S, S*, void>` of line 171: `T` is `S*`. -/
def selectB (S T : CppType) : Bool := is_same T (CppType.ptr S)

/-- Match condition of variant (c), lines 215-216:
`!std::is_pointer<T>::value && std::is_constructible<T>::value &&
(std::is_convertible<T,bool>::value || std::is_constructible<bool,T>::value)`. -/
def selectC (_S T : CppType) : Bool :=
  ! is_pointer T && is_constructible T
    && (is_convertible_bool T || is_bool_constructible T)

/-- Match condition of variant (d), the full specialization
`ServiceTrackerCustomizer<void, void*, void>` of line 259. -/
def selectD (S T : CppType) : Bool :=
  is_same S CppType.void && is_same T (CppType.ptr CppType.void)

/-- Which specialization of `ServiceTrackerCustomizer` a pair instantiates:
one of the four variants, or the empty primary template of lines 32-34. -/
inductive Variant where
  | distinctPtr : Variant
  | samePtr : Variant
  | boolValue : Variant
  | untyped : Variant
  | primary : Variant
deriving DecidableEq

/-- C++ template specialization choice for `ServiceTrackerCustomizer<S, T>`.
The full specialization (d) is more specialized than the partial
specialization (b), so C++ partial ordering prefers it when both match;
testing `selectD` first encodes that.  All other pairs of match conditions
are mutually exclusive (proved below), so their relative order is
immaterial. -/
def resolve (S T : CppType) : Variant :=
  if selectD S T then Variant.untyped
  else if selectB S T then Variant.samePtr
  else if selectA S T then Variant.distinctPtr
  else if selectC S T then Variant.boolValue
  else Variant.primary

/-- Whether the resolved struct defines the `TypeTraits` bundle (and the
derived aliases and observer methods).  The primary template body at lines
32-34 is empty, so instantiating it offers no members and any use of them
fails to compile. -/
def hasTypeTraits : Variant → Bool
  | .primary => false
  | _ => true

/-- The default template argument of line 32: `T = S*`, so
`ServiceTrackerCustomizer<S>` means `ServiceTrackerCustomizer<S, S*>`. -/
def defaultTrackedType (S : CppType) : CppType := CppType.ptr S

/-- A raw C++ pointer value: `none` is `nullptr`, `some a` a non-null
address. -/
abbrev RawPtr := Option Nat

/-- `InterfaceMap` (`std::map<std::string, void*>`): interface name to
instance handle, modelled as an association list. -/
abbrev InterfaceMap := List (String × Nat)

/-- `detail::ServiceArg<S>::type`, lines 38-48: the argument type of the
synthesized `ConvertToTrackedType` is `S*` in general and
`const InterfaceMap&` for `S = void`. -/
inductive ServiceArg where
  | ptrArg : RawPtr → ServiceArg
  | mapArg : InterfaceMap → ServiceArg
deriving DecidableEq

/-- The message of the `std::runtime_error` thrown by the synthesized
`ConvertToTrackedType` of variants (a) and (c), lines 113 and 242. -/
def customizerRequiredMsg : String :=
  "A custom ServiceTrackerCustomizer instance is required for custom tracked objects."

namespace TraitsA

/-- Variant (a) `TypeTraits::IsValid`, lines 96-99: `t != nullptr`. -/
def IsValid (t : RawPtr) : Bool := t ≠ none

/-- Variant (a) `TypeTraits::DefaultValue`, lines 101-104: `nullptr`. -/
def DefaultValue : RawPtr := none

/-- Variant (a) `TypeTraits::Dispose`, lines 106-109: `t = nullptr`,
returned as the new value of the by-reference argument. -/
def Dispose (_t : RawPtr) : RawPtr := none

/-- Variant (a) `TypeTraits::ConvertToTrackedType`, lines 111-114: always
throws `std::runtime_error`. -/
def ConvertToTrackedType (_s : ServiceArg) : Except String RawPtr :=
  Except.error customizerRequiredMsg

end TraitsA

namespace TraitsB

/-- Variant (b) `TypeTraits::IsValid`, lines 181-184: `t != nullptr`. -/
def IsValid (t : RawPtr) : Bool := t ≠ none

/-- Variant (b) `TypeTraits::DefaultValue`, lines 186-189: `nullptr`. -/
def DefaultValue : RawPtr := none

/-- Variant (b) `TypeTraits::Dispose`, lines 191-194: `t = nullptr`,
returned as the new value of the by-reference argument. -/
def Dispose (_t : RawPtr) : RawPtr := none

/-- Variant (b) `TypeTraits::ConvertToTrackedType`, lines 196-199:
`return s;`. -/
def ConvertToTrackedType (s : RawPtr) : RawPtr := s

end TraitsB

/-- A C++ type admissible as the tracked type of variant (c): a value type
together with the result of its value initialization `T()` and its
conversion `static_cast<bool>`. -/
structure BoolConvertible where
  carrier : Type
  defaultInit : carrier
  toBool : carrier → Bool

/-- `int` as a variant (c) tracked type: `int()` is `0`,
`static_cast<bool>(n)` is `n != 0`. -/
def intCpp : BoolConvertible where
  carrier := Nat
  defaultInit := 0
  toBool := fun n => n != 0

/-- A C++ class `struct AlwaysTrue { operator bool() const { return true; } };`:
default-constructible, convertible to `bool`, and every value of it —
including the default-constructed one — converts to `true`. -/
def alwaysTrueCpp : BoolConvertible where
  carrier := Unit
  defaultInit := ()
  toBool := fun _ => true

namespace TraitsC

/-- Variant (c) `TypeTraits::IsValid`, lines 226-229:
`static_cast<bool>(t)`. -/
def IsValid (V : BoolConvertible) (t : V.carrier) : Bool := V.toBool t

/-- Variant (c) `TypeTraits::DefaultValue`, lines 231-234:
`TrackedReturnType()`. -/
def DefaultValue (V : BoolConvertible) : V.carrier := V.defaultInit

/-- Variant (c) `TypeTraits::Dispose`, lines 236-238: empty body, the
by-reference argument is left unchanged. -/
def Dispose (V : BoolConvertible) (t : V.carrier) : V.carrier := t

/-- Variant (c) `TypeTraits::ConvertToTrackedType`, lines 240-243: always
throws `std::runtime_error`. -/
def ConvertToTrackedType (V : BoolConvertible) (_s : ServiceArg) :
    Except String V.carrier :=
  Except.error customizerRequiredMsg

end TraitsC

namespace TraitsD

/-- Variant (d) `TypeTraits::IsValid`, lines 269-272: `!t.empty()`. -/
def IsValid (t : InterfaceMap) : Bool := ! t.isEmpty

/-- Variant (d) `TypeTraits::DefaultValue`, lines 274-277:
`TrackedReturnType()`, the empty map. -/
def DefaultValue : InterfaceMap := []

/-- Variant (d) `TypeTraits::Dispose`, lines 279-282: `t.clear()`, returned
as the new value of the by-reference argument. -/
def Dispose (_t : InterfaceMap) : InterfaceMap := []

/-- Variant (d) `TypeTraits::ConvertToTrackedType`, lines 284-287:
`return im;` — the `const InterfaceMap&` argument is returned by value, a
copy. -/
def ConvertToTrackedType (im : InterfaceMap) : InterfaceMap := im

end TraitsD

/-- Two map cells for the frame property of variant (d): the map the caller
supplied to `ConvertToTrackedType`, and the by-value copy the call
returned. -/
structure UntypedStore where
  original : InterfaceMap
  tracked : InterfaceMap
deriving DecidableEq

/-- Calling variant (d) `ConvertToTrackedType` on `m`: the caller's map is
untouched and the returned copy is stored. -/
def runConvertUntyped (m : InterfaceMap) : UntypedStore :=
  { original := m, tracked := TraitsD.ConvertToTrackedType m }

/-- Calling variant (d) `Dispose` on the stored tracked copy: only the
referenced cell is mutated. -/
def runDisposeTracked (st : UntypedStore) : UntypedStore :=
  { st with tracked := TraitsD.Dispose st.tracked }

/-- C2: for variants (a) and (c) the synthesized `ConvertToTrackedType`
never returns normally on any input: it always raises the runtime fault
whose message says a custom customizer is required, and in particular never
produces an `ok` result, so it never returns the default/null value. -/
theorem C2_convert_always_faults (s : ServiceArg) (V : BoolConvertible) :
    TraitsA.ConvertToTrackedType s = Except.error customizerRequiredMsg ∧
    TraitsC.ConvertToTrackedType V s = Except.error customizerRequiredMsg ∧
    (∀ r : RawPtr, TraitsA.ConvertToTrackedType s ≠ Except.ok r) ∧
    (∀ t : V.carrier, TraitsC.ConvertToTrackedType V s ≠ Except.ok t) := by
  refine ⟨rfl, rfl, ?_, ?_⟩ <;> intro x h <;>
    simp [TraitsA.ConvertToTrackedType, TraitsC.ConvertToTrackedType] at h

/-- C5: for variant (b), `ConvertToTrackedType` is the identity on every
handle, and on a non-null handle the result satisfies `IsValid`. -/
theorem C5_convert_roundtrip (s : RawPtr) (h : s ≠ none) :
    TraitsB.ConvertToTrackedType s = s ∧
    TraitsB.IsValid (TraitsB.ConvertToTrackedType s) = true := by
  refine ⟨rfl, ?_⟩
  simp [TraitsB.IsValid, TraitsB.ConvertToTrackedType, h]

theorem C5_convert_roundtrip_witness :
    TraitsB.ConvertToTrackedType (some 7) = some 7 ∧
    TraitsB.IsValid (TraitsB.ConvertToTrackedType (some 7)) = true :=
  C5_convert_roundtrip (some 7) (by decide)

/-- C6: for variant (d), `ConvertToTrackedType` is the identity on every
interface map, and `IsValid` holds exactly on the non-empty maps. -/
theorem C6_untyped_roundtrip (m : InterfaceMap) :
    TraitsD.ConvertToTrackedType m = m ∧
    (TraitsD.IsValid m = true ↔ m ≠ []) := by
  refine ⟨rfl, ?_⟩
  cases m <;> simp [TraitsD.IsValid]

/-- C8: a pair `(S, T)` matched by none of the four variant conditions
resolves to the primary template, which has no `TypeTraits` bundle (its body
at lines 32-34 is empty), so no behavior bundle is bound and any use of the
bundle's members fails to compile. -/
theorem C8_no_match_no_bundle (S T : CppType)
    (h : selectA S T = false ∧ selectB S T = false ∧ selectC S T = false ∧
      selectD S T = false) :
    resolve S T = Variant.primary ∧ hasTypeTraits (resolve S T) = false := by
  obtain ⟨ha, hb, hc, hd⟩ := h
  simp [resolve, ha, hb, hc, hd, hasTypeTraits]

theorem C8_no_match_no_bundle_witness :
    (selectA (CppType.cls "Foo" true true true) (CppType.cls "NoBool" true false false) = false ∧
      selectB (CppType.cls "Foo" true true true) (CppType.cls "NoBool" true false false) = false ∧
      selectC (CppType.cls "Foo" true true true) (CppType.cls "NoBool" true false false) = false ∧
      selectD (CppType.cls "Foo" true true true) (CppType.cls "NoBool" true false false) = false) ∧
    resolve (CppType.cls "Foo" true true true) (CppType.cls "NoBool" true false false) = Variant.primary ∧
    hasTypeTraits (resolve (CppType.cls "Foo" true true true) (CppType.cls "NoBool" true false false)) = false :=
  ⟨by decide, C8_no_match_no_bundle _ _ (by decide)⟩

/-- C10: in variant (d), `ConvertToTrackedType` takes the supplied map by
`const` reference and returns it by value, a copy; `Dispose` applied to the
returned tracked copy clears that copy while the originally supplied map is
unchanged. -/
theorem C10_copy_then_clear_frame (m : InterfaceMap) :
    (runConvertUntyped m).tracked = m ∧
    (runDisposeTracked (runConvertUntyped m)).tracked = TraitsD.DefaultValue ∧
    (runDisposeTracked (runConvertUntyped m)).original = m := by
  exact ⟨rfl, rfl, rfl⟩

/-- C1 counterexample: at the pair `(void, void*)` two of the four variant
match conditions hold at once — (b), since `void*` is `S*` for `S = void`,
and (d), the explicit specialization for exactly this pair — so the claim
that at most one selection predicate holds for every pair is false; C++
settles this pair by specialization ordering, not by empty overlap. -/
theorem C1_overlap_counterexample :
    selectB CppType.void (CppType.ptr CppType.void) = true ∧
    selectD CppType.void (CppType.ptr CppType.void) = true := by decide

/-- C1 amended: the four match conditions are pairwise disjoint with the
single exception of (b) and (d), which hold together exactly at the pair
`(void, void*)`; there C++ partial ordering picks the more specialized (d),
so the selector still binds at most one behavior bundle for any pair. -/
theorem C1_pairwise_disjoint (S T : CppType) :
    ¬(selectA S T = true ∧ selectB S T = true) ∧
    ¬(selectA S T = true ∧ selectC S T = true) ∧
    ¬(selectA S T = true ∧ selectD S T = true) ∧
    ¬(selectB S T = true ∧ selectC S T = true) ∧
    ¬(selectC S T = true ∧ selectD S T = true) ∧
    ((selectB S T = true ∧ selectD S T = true) ↔
      (S = CppType.void ∧ T = CppType.ptr CppType.void)) := by
  cases T with
  | void =>
      simp [selectA, selectB, selectC, selectD, is_pointer, is_same,
        is_constructible, is_convertible_bool, is_bool_constructible]
  | ptr u =>
      simp [selectA, selectB, selectC, selectD, is_pointer, is_same,
        is_constructible, is_convertible_bool, is_bool_constructible]
      aesop
  | cls n d c b =>
      simp [selectA, selectB, selectC, selectD, is_pointer, is_same,
        is_constructible, is_convertible_bool, is_bool_constructible]

/-- C3 counterexample: a class with `operator bool() const { return true; }`
is admissible for variant (c) — non-pointer, default-constructible,
convertible to `bool` — yet `IsValid(DefaultValue())` evaluates to `true`
for it, because variant (c)'s `IsValid` is `static_cast<bool>(t)` and
nothing forces the default-constructed value to convert to `false`. -/
theorem C3_default_valid_counterexample :
    selectC (CppType.cls "Foo" true true true)
      (CppType.cls "AlwaysTrue" true true false) = true ∧
    TraitsC.IsValid alwaysTrueCpp (TraitsC.DefaultValue alwaysTrueCpp) = true := by
  exact ⟨rfl, rfl⟩

/-- C3 amended: `IsValid(DefaultValue())` is `false` unconditionally for
variants (a), (b) and (d) — the null handle is invalid and the empty map is
invalid — while for variant (c) it is `false` exactly when the
default-constructed tracked type converts to `false`, a property of the
client-chosen type that the code does not enforce. -/
theorem C3_default_invalid (V : BoolConvertible)
    (h : V.toBool V.defaultInit = false) :
    TraitsA.IsValid TraitsA.DefaultValue = false ∧
    TraitsB.IsValid TraitsB.DefaultValue = false ∧
    TraitsC.IsValid V (TraitsC.DefaultValue V) = false ∧
    TraitsD.IsValid TraitsD.DefaultValue = false := by
  exact ⟨rfl, rfl, h, rfl⟩

theorem C3_default_invalid_witness :
    TraitsA.IsValid TraitsA.DefaultValue = false ∧
    TraitsB.IsValid TraitsB.DefaultValue = false ∧
    TraitsC.IsValid intCpp (TraitsC.DefaultValue intCpp) = false ∧
    TraitsD.IsValid TraitsD.DefaultValue = false :=
  C3_default_invalid intCpp (by decide)

/-- C4 counterexample: in variant (c) `Dispose` has an empty body, so
disposing the tracked `int` value `5` leaves it at `5`, which is not the
state `DefaultValue()` produces (`0`). -/
theorem C4_dispose_counterexample :
    TraitsC.Dispose intCpp (5 : Nat) ≠ TraitsC.DefaultValue intCpp := by
  simp [TraitsC.Dispose, TraitsC.DefaultValue, intCpp]

/-- C4 amended: for variants (a), (b) and (d), `Dispose` leaves its argument
in the state `DefaultValue()` produces (null handle resp. empty map); for
variant (c), `Dispose` is a no-op that leaves its argument unchanged, so a
disposed value is distinguishable from a never-set one whenever it was not
already the default. -/
theorem C4_dispose_resets (pa pb : RawPtr) (m : InterfaceMap)
    (V : BoolConvertible) (t : V.carrier) :
    TraitsA.Dispose pa = TraitsA.DefaultValue ∧
    TraitsB.Dispose pb = TraitsB.DefaultValue ∧
    TraitsD.Dispose m = TraitsD.DefaultValue ∧
    TraitsC.Dispose V t = t := by
  exact ⟨rfl, rfl, rfl, rfl⟩

/-- C7 counterexample: in variant (c) even the second of two `Dispose` calls
leaves the tracked `int` value `5` at `5`, not at `DefaultValue()` (`0`), so
the claim that both calls leave the value equal to `DefaultValue()` fails. -/
theorem C7_idempotence_counterexample :
    TraitsC.Dispose intCpp (TraitsC.Dispose intCpp (5 : Nat)) ≠
      TraitsC.DefaultValue intCpp := by
  simp [TraitsC.Dispose, TraitsC.DefaultValue, intCpp]

/-- C7 amended: `Dispose` is idempotent in every variant; for variants (a),
(b) and (d) both the first and the second call leave the value equal to
`DefaultValue()`, while for variant (c) `Dispose` is the identity, so the
second call leaves the value exactly where the first did — unchanged, not at
`DefaultValue()`. -/
theorem C7_dispose_idempotent (pa pb : RawPtr) (m : InterfaceMap)
    (V : BoolConvertible) (t : V.carrier) :
    (TraitsA.Dispose pa = TraitsA.DefaultValue ∧
      TraitsA.Dispose (TraitsA.Dispose pa) = TraitsA.DefaultValue) ∧
    (TraitsB.Dispose pb = TraitsB.DefaultValue ∧
      TraitsB.Dispose (TraitsB.Dispose pb) = TraitsB.DefaultValue) ∧
    (TraitsD.Dispose m = TraitsD.DefaultValue ∧
      TraitsD.Dispose (TraitsD.Dispose m) = TraitsD.DefaultValue) ∧
    TraitsC.Dispose V (TraitsC.Dispose V t) = TraitsC.Dispose V t := by
  exact ⟨⟨rfl, rfl⟩, ⟨rfl, rfl⟩, ⟨rfl, rfl⟩, rfl⟩

/-- C9 counterexample: with the tracked type parameter omitted for
`S = void`, the default `T = S*` is `void*`, and `(void, void*)` resolves to
the untyped variant (d) — the explicit full specialization — not to the
same-type-handle variant (b). -/
theorem C9_default_counterexample :
    resolve CppType.void (defaultTrackedType CppType.void) = Variant.untyped ∧
    Variant.untyped ≠ Variant.samePtr := by decide

/-- C9 amended: when the tracked type parameter is omitted it defaults to
`S*`; for every `S` other than `void` the pair `(S, S*)` resolves to the
same-type-handle variant (b), whose `ConvertToTrackedType` is the identity
on the canonical service handle; for `S = void` it resolves to variant (d)
instead. -/
theorem C9_default_resolves_same_ptr (S : CppType) (h : S ≠ CppType.void) :
    resolve S (defaultTrackedType S) = Variant.samePtr ∧
    (∀ s : RawPtr, TraitsB.ConvertToTrackedType s = s) := by
  refine ⟨?_, fun s => rfl⟩
  have hd : selectD S (defaultTrackedType S) = false := by
    cases S with
    | void => exact absurd rfl h
    | ptr u => simp [selectD, defaultTrackedType, is_same]
    | cls n d c b => simp [selectD, defaultTrackedType, is_same]
  have hb : selectB S (defaultTrackedType S) = true := by
    simp [selectB, defaultTrackedType, is_same]
  simp [resolve, hd, hb]

theorem C9_default_resolves_same_ptr_witness :
    resolve (CppType.cls "Foo" true true true)
      (defaultTrackedType (CppType.cls "Foo" true true true)) = Variant.samePtr ∧
    (∀ s : RawPtr, TraitsB.ConvertToTrackedType s = s) :=
  C9_default_resolves_same_ptr (CppType.cls "Foo" true true true) (by decide)
